import Mathlib

/-!
Shallow embedding of the FreeRTOS Realview PBX-A9 demo application
(Demo/Realview_PBX/main.c) and proofs about its specified behaviour.

The demo consists of a bootstrap sequence (main), two task functions
(vTaskFunction, vPeriodicTaskFunction), a pair of workload descriptors
(tParam) and the kernel hook set (tick, idle, stack overflow).
Kernel primitives (vTaskDelay, vTaskDelayUntil) are not part of the
demo source; they are modelled from the specification of the kernel
collaborator's sleep operations.
-/

/-- Struct paramStruct from main.c: settings for each task.  The text
pointer may be NULL (modelled as Option); delay is in milliseconds. -/
structure paramStruct where
  text : Option String
  delay : Nat
deriving DecidableEq, Repr

/-- Constant defaultText from main.c: default text if no parameter
struct or no text is available. -/
def defaultText : String := "<NO TEXT>\r\n"

/-- Constant defaultDelay from main.c: default delay (milliseconds)
if no parameter struct is available. -/
def defaultDelay : Nat := 1000

/-- Resolution of the taskName local in both task functions:
taskName is defaultText when the parameter pointer is NULL or its
text field is NULL, and the descriptor's own text otherwise. -/
def resolveTaskName (params : Option paramStruct) : String :=
  match params with
  | none => defaultText
  | some p =>
    match p.text with
    | none => defaultText
    | some t => t

/-- Resolution of the delay local in both task functions: delay is
defaultDelay when the parameter pointer is NULL, and the descriptor's
own delay otherwise (even when the text field is NULL). -/
def resolveDelay (params : Option paramStruct) : Nat :=
  match params with
  | none => defaultDelay
  | some p => p.delay

/-- Modelled from the spec: the kernel primitive vTaskDelay
(sleep_relative) is not under src/.  The next wake time is computed
as now plus the requested number of ticks at the moment of the call. -/
def vTaskDelay (now ticks : Nat) : Nat := now + ticks

/-- Timing state of the aperiodic task: the tick at which the current
iteration of the loop body starts (its wake tick). -/
structure ATaskState where
  wakeTick : Nat
deriving DecidableEq, Repr

/-- One iteration of the loop body of vTaskFunction: emit taskName via
the serial write, then vTaskDelay for delay milliseconds converted to
ticks by integer division by the ms-per-tick rate.  The body consumes
body ticks before the delay call is made. -/
def vTaskFunction_iter (params : Option paramStruct) (tickRateMs body : Nat)
    (s : ATaskState) : ATaskState × String :=
  let taskName := resolveTaskName params
  let delay := resolveDelay params
  let now := s.wakeTick + body
  ({ wakeTick := vTaskDelay now (delay / tickRateMs) }, taskName)

/-- Trace of wake ticks of vTaskFunction: iteration i starts at the
wake tick of state i, with body execution times given by bodies. -/
def vTaskFunction_run (params : Option paramStruct) (tickRateMs t0 : Nat)
    (bodies : Nat → Nat) : Nat → ATaskState
  | 0 => { wakeTick := t0 }
  | i + 1 =>
    (vTaskFunction_iter params tickRateMs (bodies i)
      (vTaskFunction_run params tickRateMs t0 bodies i)).1

/-- C2: the aperiodic task emits its resolved text each iteration and
then sleeps a relative duration of delay / tickRateMs ticks, so the
tick-count difference between consecutive wakes is at least that. -/
theorem vTaskFunction_relative_delay (params : Option paramStruct)
    (tickRateMs t0 : Nat) (bodies : Nat → Nat) (i : Nat) :
    (vTaskFunction_iter params tickRateMs (bodies i)
        (vTaskFunction_run params tickRateMs t0 bodies i)).2
      = resolveTaskName params ∧
    (vTaskFunction_run params tickRateMs t0 bodies (i + 1)).wakeTick
      ≥ (vTaskFunction_run params tickRateMs t0 bodies i).wakeTick
          + resolveDelay params / tickRateMs := by
  constructor
  · rfl
  · show (vTaskFunction_iter params tickRateMs (bodies i)
        (vTaskFunction_run params tickRateMs t0 bodies i)).1.wakeTick ≥ _
    simp only [vTaskFunction_iter, vTaskDelay]
    omega

/-- Modelled from the spec: the kernel primitive vTaskDelayUntil
(sleep_until) is not under src/.  It updates the reference tick to
reference + period and suspends until exactly that tick; if the call
is made after that tick (overrun) the task wakes immediately, with
the reference still advanced by exactly one period.  The result pair
is (new reference, tick at which the task next wakes). -/
def vTaskDelayUntil (lastWake period now : Nat) : Nat × Nat :=
  (lastWake + period, max now (lastWake + period))

/-- Timing state of the fixed-frequency task: the lastWakeTime
reference variable and the tick at which the current iteration of
the loop body starts. -/
structure PTaskState where
  lastWakeTime : Nat
  wakeTick : Nat
deriving DecidableEq, Repr

/-- Entry of vPeriodicTaskFunction before the loop: lastWakeTime is
initialized exactly once from xTaskGetTickCount (the tick count t0 at
entry), and the first iteration starts immediately. -/
def vPeriodicTaskFunction_init (t0 : Nat) : PTaskState :=
  { lastWakeTime := t0, wakeTick := t0 }

/-- One iteration of the loop body of vPeriodicTaskFunction: emit
taskName via the serial write, then vTaskDelayUntil with the
lastWakeTime reference and the period delay / tickRateMs ticks.  The
body consumes body ticks before the suspend call is made. -/
def vPeriodicTaskFunction_iter (params : Option paramStruct)
    (tickRateMs body : Nat) (s : PTaskState) : PTaskState × String :=
  let taskName := resolveTaskName params
  let delay := resolveDelay params
  let now := s.wakeTick + body
  let r := vTaskDelayUntil s.lastWakeTime (delay / tickRateMs) now
  ({ lastWakeTime := r.1, wakeTick := r.2 }, taskName)

/-- Trace of the fixed-frequency task: state after i iterations,
starting from the tick count t0 captured once at entry. -/
def vPeriodicTaskFunction_run (params : Option paramStruct)
    (tickRateMs t0 : Nat) (bodies : Nat → Nat) : Nat → PTaskState
  | 0 => vPeriodicTaskFunction_init t0
  | i + 1 =>
    (vPeriodicTaskFunction_iter params tickRateMs (bodies i)
      (vPeriodicTaskFunction_run params tickRateMs t0 bodies i)).1

/-- Closed form of the fixed-frequency trace when every body execution
takes less than one period: both the reference and the wake tick after
i iterations equal t0 plus i periods. -/
theorem vPeriodicTaskFunction_run_closed (params : Option paramStruct)
    (tickRateMs t0 : Nat) (bodies : Nat → Nat)
    (h : ∀ j, bodies j < resolveDelay params / tickRateMs) (i : Nat) :
    vPeriodicTaskFunction_run params tickRateMs t0 bodies i
      = { lastWakeTime := t0 + i * (resolveDelay params / tickRateMs),
          wakeTick := t0 + i * (resolveDelay params / tickRateMs) } := by
  induction i with
  | zero => simp [vPeriodicTaskFunction_run, vPeriodicTaskFunction_init]
  | succ i ih =>
    have hb := h i
    have hmax : max (t0 + i * (resolveDelay params / tickRateMs) + bodies i)
        (t0 + i * (resolveDelay params / tickRateMs)
          + resolveDelay params / tickRateMs)
      = t0 + i * (resolveDelay params / tickRateMs)
          + resolveDelay params / tickRateMs := Nat.max_eq_right (by omega)
    simp only [vPeriodicTaskFunction_run, ih, vPeriodicTaskFunction_iter,
      vTaskDelayUntil, hmax]
    rw [PTaskState.mk.injEq]
    exact ⟨by ring, by ring⟩

/-- C1: the fixed-frequency task captures the tick count exactly once
before its loop (both fields of the initial state are t0), each
iteration emits its resolved text, the reference always advances by
exactly one period, and, when every body execution takes less than one
period, the tick-count difference between consecutive wakes is exactly
the period delay / tickRateMs. -/
theorem vPeriodicTaskFunction_no_drift (params : Option paramStruct)
    (tickRateMs t0 : Nat) (bodies : Nat → Nat)
    (h : ∀ j, bodies j < resolveDelay params / tickRateMs) (i : Nat) :
    vPeriodicTaskFunction_run params tickRateMs t0 bodies 0
      = { lastWakeTime := t0, wakeTick := t0 } ∧
    (vPeriodicTaskFunction_iter params tickRateMs (bodies i)
        (vPeriodicTaskFunction_run params tickRateMs t0 bodies i)).2
      = resolveTaskName params ∧
    (vPeriodicTaskFunction_run params tickRateMs t0 bodies (i + 1)).lastWakeTime
      = (vPeriodicTaskFunction_run params tickRateMs t0 bodies i).lastWakeTime
          + resolveDelay params / tickRateMs ∧
    (vPeriodicTaskFunction_run params tickRateMs t0 bodies (i + 1)).wakeTick
      = (vPeriodicTaskFunction_run params tickRateMs t0 bodies i).wakeTick
          + resolveDelay params / tickRateMs := by
  refine ⟨rfl, rfl, ?_, ?_⟩
  · rw [vPeriodicTaskFunction_run_closed params tickRateMs t0 bodies h (i + 1),
      vPeriodicTaskFunction_run_closed params tickRateMs t0 bodies h i]
    simp
    ring
  · rw [vPeriodicTaskFunction_run_closed params tickRateMs t0 bodies h (i + 1),
      vPeriodicTaskFunction_run_closed params tickRateMs t0 bodies h i]
    simp
    ring

/-- Witness for C1 at a concrete input: descriptor with delay 3 ms,
tick rate 1 ms per tick (period 3 ticks), start tick 5, every body
taking 1 tick, iteration 2. -/
theorem vPeriodicTaskFunction_no_drift_witness :
    (∀ j : Nat, (fun _ : Nat => 1) j
        < resolveDelay (some { text := some "Task1\r\n", delay := 3 }) / 1) ∧
    (vPeriodicTaskFunction_run (some { text := some "Task1\r\n", delay := 3 })
        1 5 (fun _ => 1) 0 = { lastWakeTime := 5, wakeTick := 5 } ∧
      (vPeriodicTaskFunction_iter (some { text := some "Task1\r\n", delay := 3 })
          1 ((fun _ : Nat => 1) 2)
          (vPeriodicTaskFunction_run (some { text := some "Task1\r\n", delay := 3 })
            1 5 (fun _ => 1) 2)).2
        = resolveTaskName (some { text := some "Task1\r\n", delay := 3 }) ∧
      (vPeriodicTaskFunction_run (some { text := some "Task1\r\n", delay := 3 })
          1 5 (fun _ => 1) 3).lastWakeTime
        = (vPeriodicTaskFunction_run (some { text := some "Task1\r\n", delay := 3 })
            1 5 (fun _ => 1) 2).lastWakeTime
            + resolveDelay (some { text := some "Task1\r\n", delay := 3 }) / 1 ∧
      (vPeriodicTaskFunction_run (some { text := some "Task1\r\n", delay := 3 })
          1 5 (fun _ => 1) 3).wakeTick
        = (vPeriodicTaskFunction_run (some { text := some "Task1\r\n", delay := 3 })
            1 5 (fun _ => 1) 2).wakeTick
            + resolveDelay (some { text := some "Task1\r\n", delay := 3 }) / 1) :=
  ⟨by intro j; show (1 : Nat) < 3; decide,
    vPeriodicTaskFunction_no_drift (some { text := some "Task1\r\n", delay := 3 })
      1 5 (fun _ => 1) (by intro j; show (1 : Nat) < 3; decide) 2⟩

/-- C10: the default-substitution rule at entry of both task functions
is asymmetric.  A NULL parameter pointer yields both the sentinel text
and the default period; a non-null descriptor with a NULL text field
yields the sentinel text but keeps the descriptor's own period; the
default period is never applied to a non-null descriptor, whatever its
period value.  Both task functions resolve their locals through
resolveTaskName and resolveDelay. -/
theorem default_substitution_asymmetric :
    resolveTaskName none = defaultText ∧
    resolveDelay none = defaultDelay ∧
    (∀ d : Nat, resolveTaskName (some { text := none, delay := d })
      = defaultText) ∧
    (∀ d : Nat, resolveDelay (some { text := none, delay := d }) = d) ∧
    (∀ p : paramStruct, resolveDelay (some p) = p.delay) :=
  ⟨rfl, rfl, fun _ => rfl, fun _ => rfl, fun _ => rfl⟩

/-- Hook vApplicationIdleHook from main.c: the non-blocking
xSerialGetChar either yields no byte (received = none) or one byte;
when a byte is present it is written twice via xSerialPutChar.  The
result is the list of bytes written, in order. -/
def vApplicationIdleHook (received : Option Int) : List Int :=
  match received with
  | none => []
  | some cChar => [cChar, cChar]

/-- C5: the idle hook is a no-op when no byte was received, and echoes
a received byte exactly twice, in order, before returning. -/
theorem idleHook_echo_twice :
    vApplicationIdleHook none = [] ∧
    ∀ b : Int, vApplicationIdleHook (some b) = [b, b] :=
  ⟨rfl, fun _ => rfl⟩

/-- Hook vApplicationTickHook from main.c, one invocation: increment
the static ticks counter; when the new value is a multiple of 1000,
print the elapsed-seconds report ticks / 1000.  The result is the new
counter value and the list of reports emitted by this invocation. -/
def vApplicationTickHook (ticks : Nat) : Nat × List Nat :=
  let t := ticks + 1
  (t, if t % 1000 = 0 then [t / 1000] else [])

/-- Iterated tick hook: counter value and all reports emitted across
the first n invocations, starting from the initial counter value 0. -/
def tickHookRun : Nat → Nat × List Nat
  | 0 => (0, [])
  | n + 1 =>
    let r := tickHookRun n
    let s := vApplicationTickHook r.1
    (s.1, r.2 ++ s.2)

/-- Counter component of the iterated tick hook: each invocation adds
exactly one, so after n invocations the counter is n. -/
theorem tickHookRun_fst (n : Nat) : (tickHookRun n).1 = n := by
  induction n with
  | zero => rfl
  | succ n ih => simp [tickHookRun, vApplicationTickHook, ih]

/-- Unfolding of one further invocation of the iterated tick hook. -/
theorem tickHookRun_succ (n : Nat) :
    tickHookRun (n + 1)
      = ((tickHookRun n).1 + 1, (tickHookRun n).2
          ++ (if ((tickHookRun n).1 + 1) % 1000 = 0
              then [((tickHookRun n).1 + 1) / 1000] else [])) := rfl

/-- Within a block of fewer than 1000 invocations after a multiple of
1000, no report is emitted. -/
theorem tickHookRun_between (k : Nat) :
    ∀ j, j ≤ 999 →
      (tickHookRun (1000 * k + j)).2 = (tickHookRun (1000 * k)).2 := by
  intro j
  induction j with
  | zero => intro _; rfl
  | succ j ih =>
    intro hj
    have hmod : (1000 * k + j + 1) % 1000 ≠ 0 := by omega
    have hidx : 1000 * k + (j + 1) = 1000 * k + j + 1 := rfl
    rw [hidx, tickHookRun_succ (1000 * k + j), tickHookRun_fst (1000 * k + j)]
    rw [if_neg hmod]
    simp [ih (by omega)]

/-- Report trace of the iterated tick hook at multiples of 1000: after
1000 times k invocations the reports are exactly 1, 2, ..., k. -/
theorem tickHookRun_reports (k : Nat) :
    (tickHookRun (1000 * k)).2 = (List.range k).map (fun j => j + 1) := by
  induction k with
  | zero => rfl
  | succ k ih =>
    have hk : 1000 * (k + 1) = 1000 * k + 999 + 1 := by ring
    rw [hk, tickHookRun_succ (1000 * k + 999), tickHookRun_fst (1000 * k + 999),
      tickHookRun_between k 999 (by omega), ih]
    have hmod : (1000 * k + 999 + 1) % 1000 = 0 := by omega
    have hdiv : (1000 * k + 999 + 1) / 1000 = k + 1 := by omega
    rw [if_pos hmod, hdiv, List.range_succ, List.map_append]
    simp

/-- C4: every tick hook invocation increments the counter by exactly
one; starting from counter value 0, after exactly 1000 times k
invocations (k at least 1) exactly k elapsed-seconds reports have been
emitted, reporting the values 1 through k in order; and an invocation
whose incremented counter is not a multiple of 1000 emits nothing. -/
theorem tickHook_counter_and_reports (k : Nat) (hk : 1 ≤ k) :
    (∀ c : Nat, (vApplicationTickHook c).1 = c + 1) ∧
    (∀ c : Nat, (c + 1) % 1000 ≠ 0 → (vApplicationTickHook c).2 = []) ∧
    (tickHookRun (1000 * k)).1 = 1000 * k ∧
    (tickHookRun (1000 * k)).2 = (List.range k).map (fun j => j + 1) ∧
    ((tickHookRun (1000 * k)).2).length = k := by
  refine ⟨fun c => rfl, fun c hc => ?_, tickHookRun_fst (1000 * k),
    tickHookRun_reports k, ?_⟩
  · simp [vApplicationTickHook, hc]
  · rw [tickHookRun_reports k]
    simp

/-- Witness for C4 at the concrete input k = 1. -/
theorem tickHook_counter_and_reports_witness :
    1 ≤ 1 ∧
    ((∀ c : Nat, (vApplicationTickHook c).1 = c + 1) ∧
      (∀ c : Nat, (c + 1) % 1000 ≠ 0 → (vApplicationTickHook c).2 = []) ∧
      (tickHookRun (1000 * 1)).1 = 1000 * 1 ∧
      (tickHookRun (1000 * 1)).2 = (List.range 1).map (fun j => j + 1) ∧
      ((tickHookRun (1000 * 1)).2).length = 1) :=
  ⟨by decide, tickHook_counter_and_reports 1 (by decide)⟩

/-- Hook vApplicationStackOverflowHook from main.c: both parameters
are explicitly discarded, a fixed diagnostic line is printed, and the
hook then loops forever.  The result is the list of lines printed and
a flag recording that the hook halts forever (never returns). -/
def vApplicationStackOverflowHook (pxTask : Option Nat)
    (pcTaskName : String) : List String × Bool :=
  ( [ "StackOverflowHook\n" ], true)

/-- Character-list helper: leadMatch needle hay is true when needle is
an initial segment of hay. -/
def leadMatch : List Char → List Char → Bool
  | [], _ => true
  | _ :: _, [] => false
  | a :: as, b :: bs => a == b && leadMatch as bs

/-- Character-list helper: needle occurs somewhere inside hay. -/
def occursInAux (needle : List Char) : List Char → Bool
  | [] => needle.isEmpty
  | b :: bs => leadMatch needle (b :: bs) || occursInAux needle bs

/-- String helper: the needle string occurs as a contiguous substring
of the hay string. -/
def occursIn (needle hay : String) : Bool :=
  occursInAux needle.data hay.data

/-- Counterexample to C3 at the concrete input pxTask = some 7,
pcTaskName = "task1": the hook's only output is the fixed diagnostic
line, which does not contain the offending task's name, so the hook
does not report the offending task's identity. -/
theorem stackOverflowHook_no_identity :
    (vApplicationStackOverflowHook (some 7) "task1").1
      = [ "StackOverflowHook\n" ] ∧
    occursIn "task1" "StackOverflowHook\n" = false ∧
    (vApplicationStackOverflowHook (some 7) "task1").2 = true := by
  refine ⟨rfl, ?_, rfl⟩
  decide

/-- C3 amended: when the kernel invokes the stack-overflow hook, the
hook ignores the task handle and task name, emits the fixed diagnostic
line "StackOverflowHook" and then halts forever, never returning; the
offending task's identity is not part of the report. -/
theorem stackOverflowHook_fixed_diagnostic (pxTask : Option Nat)
    (pcTaskName : String) :
    vApplicationStackOverflowHook pxTask pcTaskName
      = ( [ "StackOverflowHook\n" ], true) := rfl

/-- Task entry points passed to xTaskCreate in main.c. -/
inductive TaskFn where
  | vTaskFunction
  | vPeriodicTaskFunction
deriving DecidableEq, Repr

/-- Observable actions performed by main in main.c, in program order. -/
inductive Event where
  | disableInterrupts
  | installHandler (vector : Nat) (edgeTriggered : Bool) (priority : Nat)
      (processorTargets : Nat)
  | uartInit (bufferSize : Nat)
  | enableInterrupts
  | putString (s : String)
  | createTask (fn : TaskFn) (name : String) (stackDepth : Nat)
      (paramIdx : Nat) (priority : Nat) (ok : Bool)
  | startScheduler
deriving DecidableEq, Repr

/-- Final control state of main: either spinning in one of its
while-1 loops, or handed over to the running scheduler. -/
inductive Outcome where
  | haltLoop
  | schedulerRunning
deriving DecidableEq, Repr

/-- Behaviour of the kernel collaborator during bootstrap: whether
each xTaskCreate call returns pdPASS, and whether vTaskStartScheduler
ever returns (it does not under correct operation). -/
structure KernelEnv where
  create1 : Bool
  create2 : Bool
  schedulerReturns : Bool
deriving DecidableEq, Repr

/-- Modelled from the spec: app_config.h is not under src/.  It
defines two distinct fixed task priorities with the fixed-frequency
task strictly higher than the aperiodic one; the values here are
representative. -/
def PRIOR_PERIODIC : Nat := 1

/-- Modelled from the spec: priority of the fixed-frequency task,
strictly higher than PRIOR_PERIODIC. -/
def PRIOR_FIX_FREQ_PERIODIC : Nat := 2

/-- Banner printed by main before task creation. -/
def bannerMsg : String := "= = = T E S T   S T A R T E D = = =\r\n\r\n"

/-- Diagnostic printed when creation of task1 fails. -/
def createTask1FailMsg : String := "Could not create task1\r\n"

/-- Diagnostic printed when creation of task2 fails. -/
def createTask2FailMsg : String := "Could not create task2\r\n"

/-- First informational message printed after both tasks are created. -/
def keyboardMsg1 : String := "A text may be entered using a keyboard.\r\n"

/-- Second informational message printed after both tasks are created. -/
def keyboardMsg2 : String :=
  "It will be displayed when \x27Enter\x27 is pressed.\r\n\r\n"

/-- Diagnostic printed when vTaskStartScheduler returns. -/
def schedulerFailMsg : String := "Could not start the scheduler!!!\r\n"

/-- The for loop over ulVector in main: install the spurious interrupt
handler vPortUnknownInterruptHandler for every vector below n, each
edge triggered, at priority prio, targeting processor 1. -/
def installAll (prio : Nat) : Nat → List Event
  | 0 => []
  | v + 1 => installAll prio v ++ [Event.installHandler v true prio 1]

/-- Bootstrap sequence of main from main.c, as the list of observable
actions it performs and its final control state, for a given number of
interrupt vectors (portMAX_VECTORS), install priority
(configMAX_SYSCALL_INTERRUPT_PRIORITY) and kernel behaviour. -/
def mainBoot (maxVectors prio : Nat) (env : KernelEnv) : List Event × Outcome :=
  let pre : List Event :=
    Event.disableInterrupts :: installAll prio maxVectors
      ++ [Event.uartInit 64, Event.enableInterrupts,
          Event.putString bannerMsg]
  if env.create1 = false then
    (pre ++ [Event.createTask TaskFn.vTaskFunction "task1" 128 0
               PRIOR_PERIODIC false,
             Event.putString createTask1FailMsg], Outcome.haltLoop)
  else if env.create2 = false then
    (pre ++ [Event.createTask TaskFn.vTaskFunction "task1" 128 0
               PRIOR_PERIODIC true,
             Event.createTask TaskFn.vPeriodicTaskFunction "task2" 128 1
               PRIOR_FIX_FREQ_PERIODIC false,
             Event.putString createTask2FailMsg], Outcome.haltLoop)
  else if env.schedulerReturns then
    (pre ++ [Event.createTask TaskFn.vTaskFunction "task1" 128 0
               PRIOR_PERIODIC true,
             Event.createTask TaskFn.vPeriodicTaskFunction "task2" 128 1
               PRIOR_FIX_FREQ_PERIODIC true,
             Event.putString keyboardMsg1, Event.putString keyboardMsg2,
             Event.startScheduler, Event.putString schedulerFailMsg],
     Outcome.haltLoop)
  else
    (pre ++ [Event.createTask TaskFn.vTaskFunction "task1" 128 0
               PRIOR_PERIODIC true,
             Event.createTask TaskFn.vPeriodicTaskFunction "task2" 128 1
               PRIOR_FIX_FREQ_PERIODIC true,
             Event.putString keyboardMsg1, Event.putString keyboardMsg2,
             Event.startScheduler],
     Outcome.schedulerRunning)

/-- Every event produced by the vector-install loop is an install
event for a vector below the loop bound, at the given priority. -/
theorem installAll_events (prio : Nat) :
    ∀ n e, e ∈ installAll prio n →
      ∃ v, v < n ∧ e = Event.installHandler v true prio 1 := by
  intro n
  induction n with
  | zero => intro e he; simp [installAll] at he
  | succ n ih =>
    intro e he
    simp only [installAll, List.mem_append, List.mem_singleton] at he
    rcases he with he | he
    · obtain ⟨v, hv, rfl⟩ := ih e he
      exact ⟨v, by omega, rfl⟩
    · exact ⟨n, by omega, he⟩

/-- The vector-install loop covers every vector below its bound. -/
theorem installAll_covers (prio : Nat) :
    ∀ n v, v < n → Event.installHandler v true prio 1 ∈ installAll prio n := by
  intro n
  induction n with
  | zero => intro v hv; omega
  | succ n ih =>
    intro v hv
    simp only [installAll, List.mem_append, List.mem_singleton]
    by_cases hvn : v < n
    · exact Or.inl (ih v hvn)
    · have hvn2 : v = n := by omega
      subst hvn2
      exact Or.inr rfl

/-- The vector-install loop never starts the scheduler. -/
theorem installAll_no_start (prio n : Nat) :
    Event.startScheduler ∉ installAll prio n := by
  intro h
  obtain ⟨v, _, hv⟩ := installAll_events prio n Event.startScheduler h
  exact Event.noConfusion hv

/-- C6: if either xTaskCreate call fails, main emits the corresponding
creation-failure diagnostic, ends in its infinite loop, and never
reaches the vTaskStartScheduler call. -/
theorem mainBoot_create_fail (maxVectors prio : Nat) (env : KernelEnv)
    (h : env.create1 = false ∨ env.create2 = false) :
    (mainBoot maxVectors prio env).2 = Outcome.haltLoop ∧
    Event.startScheduler ∉ (mainBoot maxVectors prio env).1 ∧
    (env.create1 = false →
      Event.putString createTask1FailMsg ∈ (mainBoot maxVectors prio env).1) ∧
    (env.create1 = true → env.create2 = false →
      Event.putString createTask2FailMsg ∈ (mainBoot maxVectors prio env).1) := by
  obtain ⟨c1, c2, sr⟩ := env
  cases c1
  · refine ⟨by simp [mainBoot], ?_, ?_, ?_⟩
    · simp only [mainBoot]
      simp
      exact installAll_no_start prio maxVectors
    · intro _
      simp [mainBoot]
    · intro hc; exact absurd hc (by simp)
  · cases c2
    · refine ⟨by simp [mainBoot], ?_, ?_, ?_⟩
      · simp only [mainBoot]
        simp
        exact installAll_no_start prio maxVectors
      · intro hc; exact absurd hc (by simp)
      · intro _ _
        simp [mainBoot]
    · simp at h

/-- Witness for C6 at the concrete input maxVectors = 2, prio = 5 and
a kernel in which the second task creation fails. -/
theorem mainBoot_create_fail_witness :
    ((⟨true, false, false⟩ : KernelEnv).create1 = false ∨
      (⟨true, false, false⟩ : KernelEnv).create2 = false) ∧
    ((mainBoot 2 5 ⟨true, false, false⟩).2 = Outcome.haltLoop ∧
      Event.startScheduler ∉ (mainBoot 2 5 ⟨true, false, false⟩).1 ∧
      ((⟨true, false, false⟩ : KernelEnv).create1 = false →
        Event.putString createTask1FailMsg
          ∈ (mainBoot 2 5 ⟨true, false, false⟩).1) ∧
      ((⟨true, false, false⟩ : KernelEnv).create1 = true →
        (⟨true, false, false⟩ : KernelEnv).create2 = false →
        Event.putString createTask2FailMsg
          ∈ (mainBoot 2 5 ⟨true, false, false⟩).1)) :=
  ⟨Or.inr rfl, mainBoot_create_fail 2 5 ⟨true, false, false⟩ (Or.inr rfl)⟩

/-- C7: if vTaskStartScheduler returns, main emits the could-not-start
diagnostic as the very next and last action after the scheduler-start
call and ends in its infinite loop, executing no task code after the
return. -/
theorem mainBoot_scheduler_return (maxVectors prio : Nat) (env : KernelEnv)
    (h1 : env.create1 = true) (h2 : env.create2 = true)
    (h3 : env.schedulerReturns = true) :
    (mainBoot maxVectors prio env).2 = Outcome.haltLoop ∧
    (mainBoot maxVectors prio env).1
      = (Event.disableInterrupts :: installAll prio maxVectors
          ++ [Event.uartInit 64, Event.enableInterrupts,
              Event.putString bannerMsg,
              Event.createTask TaskFn.vTaskFunction "task1" 128 0
                PRIOR_PERIODIC true,
              Event.createTask TaskFn.vPeriodicTaskFunction "task2" 128 1
                PRIOR_FIX_FREQ_PERIODIC true,
              Event.putString keyboardMsg1, Event.putString keyboardMsg2])
        ++ [Event.startScheduler, Event.putString schedulerFailMsg] := by
  obtain ⟨c1, c2, sr⟩ := env
  simp only at h1 h2 h3
  subst h1; subst h2; subst h3
  refine ⟨by simp [mainBoot], ?_⟩
  simp [mainBoot]

/-- Witness for C7 at the concrete input maxVectors = 2, prio = 5 and
a kernel in which the scheduler-start call returns. -/
theorem mainBoot_scheduler_return_witness :
    ((⟨true, true, true⟩ : KernelEnv).create1 = true ∧
      (⟨true, true, true⟩ : KernelEnv).create2 = true ∧
      (⟨true, true, true⟩ : KernelEnv).schedulerReturns = true) ∧
    ((mainBoot 2 5 ⟨true, true, true⟩).2 = Outcome.haltLoop ∧
      (mainBoot 2 5 ⟨true, true, true⟩).1
        = (Event.disableInterrupts :: installAll 5 2
            ++ [Event.uartInit 64, Event.enableInterrupts,
                Event.putString bannerMsg,
                Event.createTask TaskFn.vTaskFunction "task1" 128 0
                  PRIOR_PERIODIC true,
                Event.createTask TaskFn.vPeriodicTaskFunction "task2" 128 1
                  PRIOR_FIX_FREQ_PERIODIC true,
                Event.putString keyboardMsg1, Event.putString keyboardMsg2])
          ++ [Event.startScheduler, Event.putString schedulerFailMsg]) :=
  ⟨⟨rfl, rfl, rfl⟩,
    mainBoot_scheduler_return 2 5 ⟨true, true, true⟩ rfl rfl rfl⟩

/-- C8: when both task creations succeed, main performs exactly, in
order: disable interrupts, install the default unknown-interrupt
handler for every vector below maxVectors (all at the same fixed
priority), initialize the serial transport, re-enable interrupts, emit
the banner, create the two tasks, and start the kernel; moreover every
vector below maxVectors has received a handler, and every install
event in the whole trace is edge triggered at that same priority and
for a vector in range. -/
theorem mainBoot_order (maxVectors prio : Nat) (env : KernelEnv)
    (h1 : env.create1 = true) (h2 : env.create2 = true) :
    (mainBoot maxVectors prio env).1
      = Event.disableInterrupts :: installAll prio maxVectors
          ++ [Event.uartInit 64, Event.enableInterrupts,
              Event.putString bannerMsg,
              Event.createTask TaskFn.vTaskFunction "task1" 128 0
                PRIOR_PERIODIC true,
              Event.createTask TaskFn.vPeriodicTaskFunction "task2" 128 1
                PRIOR_FIX_FREQ_PERIODIC true,
              Event.putString keyboardMsg1, Event.putString keyboardMsg2,
              Event.startScheduler]
          ++ (if env.schedulerReturns
              then [Event.putString schedulerFailMsg] else []) ∧
    (∀ v, v < maxVectors →
      Event.installHandler v true prio 1 ∈ (mainBoot maxVectors prio env).1) ∧
    (∀ v e p t,
      Event.installHandler v e p t ∈ (mainBoot maxVectors prio env).1 →
      p = prio ∧ e = true ∧ v < maxVectors) := by
  obtain ⟨c1, c2, sr⟩ := env
  simp only at h1 h2
  subst h1; subst h2
  refine ⟨?_, ?_, ?_⟩
  · cases sr <;> simp [mainBoot]
  · intro v hv
    have hmem := installAll_covers prio maxVectors v hv
    cases sr <;> simp [mainBoot] <;> exact hmem
  · intro v e p t hmem
    have hin : Event.installHandler v e p t ∈ installAll prio maxVectors := by
      cases sr <;> simp [mainBoot] at hmem <;> tauto
    obtain ⟨w, hw, heq⟩ :=
      installAll_events prio maxVectors (Event.installHandler v e p t) hin
    injection heq with hv he hp ht
    subst hv; subst he; subst hp
    exact ⟨rfl, rfl, hw⟩

/-- Witness for C8 at the concrete input maxVectors = 2, prio = 5 and
a kernel in which both creations succeed and the scheduler runs. -/
theorem mainBoot_order_witness :
    ((⟨true, true, false⟩ : KernelEnv).create1 = true ∧
      (⟨true, true, false⟩ : KernelEnv).create2 = true) ∧
    ((mainBoot 2 5 ⟨true, true, false⟩).1
        = Event.disableInterrupts :: installAll 5 2
            ++ [Event.uartInit 64, Event.enableInterrupts,
                Event.putString bannerMsg,
                Event.createTask TaskFn.vTaskFunction "task1" 128 0
                  PRIOR_PERIODIC true,
                Event.createTask TaskFn.vPeriodicTaskFunction "task2" 128 1
                  PRIOR_FIX_FREQ_PERIODIC true,
                Event.putString keyboardMsg1, Event.putString keyboardMsg2,
                Event.startScheduler]
            ++ (if (⟨true, true, false⟩ : KernelEnv).schedulerReturns
                then [Event.putString schedulerFailMsg] else []) ∧
      (∀ v, v < 2 →
        Event.installHandler v true 5 1 ∈ (mainBoot 2 5 ⟨true, true, false⟩).1) ∧
      (∀ v e p t,
        Event.installHandler v e p t ∈ (mainBoot 2 5 ⟨true, true, false⟩).1 →
        p = 5 ∧ e = true ∧ v < 2)) :=
  ⟨⟨rfl, rfl⟩, mainBoot_order 2 5 ⟨true, true, false⟩ rfl rfl⟩

/-- Array tParam from main.c: parameters for the two tasks, as
initialized by the program. -/
def tParam : List paramStruct :=
  [ { text := some "Task1\r\n", delay := 1000 },
    { text := some "Periodic task\r\n", delay := 3000 } ]

/-- Mutable memory of the demo process: the in-memory descriptor
array, the tick hook's static counter, the two tasks' timing states,
the serial output log and the idle hook's echo log. -/
structure SysState where
  tParamMem : List paramStruct
  ticks : Nat
  aTask : ATaskState
  pTask : PTaskState
  serialOut : List String
  echoed : List Int
deriving Repr

/-- One iteration of vTaskFunction over the whole process state: it
reads its descriptor through its parameter pointer (an index into the
in-memory array, or none for NULL), emits the resolved text and
advances its own timing state; it writes nothing else. -/
def sysTaskFunctionIter (paramIdx : Option Nat) (tickRateMs body : Nat)
    (s : SysState) : SysState :=
  let params : Option paramStruct :=
    match paramIdx with
    | none => none
    | some i => s.tParamMem.get? i
  let r := vTaskFunction_iter params tickRateMs body s.aTask
  { s with aTask := r.1, serialOut := s.serialOut ++ [r.2] }

/-- One iteration of vPeriodicTaskFunction over the whole process
state: like sysTaskFunctionIter but with the fixed-frequency timing
state; it writes nothing else. -/
def sysPeriodicTaskFunctionIter (paramIdx : Option Nat)
    (tickRateMs body : Nat) (s : SysState) : SysState :=
  let params : Option paramStruct :=
    match paramIdx with
    | none => none
    | some i => s.tParamMem.get? i
  let r := vPeriodicTaskFunction_iter params tickRateMs body s.pTask
  { s with pTask := r.1, serialOut := s.serialOut ++ [r.2] }

/-- One tick hook invocation over the whole process state: it touches
only its static counter and the output log. -/
def sysTickHook (s : SysState) : SysState :=
  let r := vApplicationTickHook s.ticks
  { s with ticks := r.1,
           serialOut := s.serialOut ++ r.2.map (fun n => toString n) }

/-- One idle hook invocation over the whole process state: it touches
only the echo log. -/
def sysIdleHook (received : Option Int) (s : SysState) : SysState :=
  { s with echoed := s.echoed ++ vApplicationIdleHook received }

/-- One stack-overflow hook invocation over the whole process state:
it touches only the output log. -/
def sysStackOverflowHook (pxTask : Option Nat) (pcTaskName : String)
    (s : SysState) : SysState :=
  { s with serialOut := s.serialOut
      ++ (vApplicationStackOverflowHook pxTask pcTaskName).1 }

/-- Serial emissions among a list of bootstrap events. -/
def putStringsOf (events : List Event) : List String :=
  events.filterMap fun e =>
    match e with
    | Event.putString m => some m
    | _ => none

/-- The bootstrap sequence over the whole process state: it appends
its serial emissions to the output log and touches nothing else. -/
def sysMainBoot (maxVectors prio : Nat) (env : KernelEnv)
    (s : SysState) : SysState :=
  { s with serialOut := s.serialOut
      ++ putStringsOf (mainBoot maxVectors prio env).1 }

/-- C9: the two workload descriptors are exactly the two records that
main.c initializes tParam with, and every operation of the program, in
the state-passing embedding, leaves the in-memory descriptor array
unchanged: both task iterations, all hook invocations and the
bootstrap sequence. -/
theorem tParam_immutable :
    tParam = [ { text := some "Task1\r\n", delay := 1000 },
               { text := some "Periodic task\r\n", delay := 3000 } ] ∧
    (∀ paramIdx tickRateMs body s,
      (sysTaskFunctionIter paramIdx tickRateMs body s).tParamMem
        = s.tParamMem) ∧
    (∀ paramIdx tickRateMs body s,
      (sysPeriodicTaskFunctionIter paramIdx tickRateMs body s).tParamMem
        = s.tParamMem) ∧
    (∀ s, (sysTickHook s).tParamMem = s.tParamMem) ∧
    (∀ received s, (sysIdleHook received s).tParamMem = s.tParamMem) ∧
    (∀ pxTask pcTaskName s,
      (sysStackOverflowHook pxTask pcTaskName s).tParamMem = s.tParamMem) ∧
    (∀ maxVectors prio env s,
      (sysMainBoot maxVectors prio env s).tParamMem = s.tParamMem) :=
  ⟨rfl, fun _ _ _ _ => rfl, fun _ _ _ _ => rfl, fun _ => rfl,
    fun _ _ => rfl, fun _ _ _ => rfl, fun _ _ _ _ => rfl⟩
